import Mathlib

/-!
Shallow embedding of the sprite-batching renderer, texture/atlas manager,
animation component and enemy-formation logic of the Troup'O Invaders
repository, together with proofs of the specification's claims about them.

Numeric quantities (pixel coordinates, colors, timers) are embedded as
rationals; texture handles are abstract naturals (`Option ℕ`, with `none`
for JavaScript `null`).
-/

/-- Embedding of the `Sprite` base class (`src/entities/sprite.js`):
exactly the fields the batched renderer reads in `drawSprite`.
`color0`..`color3` are the entries of the RGBA `color` array, `texture` is
the optional texture handle (`null` ↦ `none`).  Fields the renderer never
touches (rotation, scale, origin) are omitted. -/
structure Sprite where
  x : ℚ
  y : ℚ
  width : ℚ
  height : ℚ
  color0 : ℚ
  color1 : ℚ
  color2 : ℚ
  color3 : ℚ
  texCoordX : ℚ
  texCoordY : ℚ
  texCoordWidth : ℚ
  texCoordHeight : ℚ
  texture : Option Nat
  visible : Bool
  alpha : ℚ
  deriving DecidableEq, Repr

/-- One vertex of the scratch buffer: 8 floats
(2 position + 2 UV + 4 color), as laid out by `drawSprite`. -/
structure Vertex where
  px : ℚ
  py : ℚ
  u : ℚ
  v : ℚ
  r : ℚ
  g : ℚ
  b : ℚ
  a : ℚ
  deriving DecidableEq, Repr

/-- A recorded `gl.drawArrays` call issued by `flush`: the live prefix of
the scratch buffer that was uploaded, the texture bound for the call, and
the vertex count passed to `drawArrays`. -/
structure DrawCall where
  verts : List Vertex
  texture : Option Nat
  vertexCount : Nat
  deriving DecidableEq, Repr

/-- State of `SpriteRenderer` (`src/core/sprite-renderer.js`).  The
`Float32Array` scratch buffer is modelled by `vertices`, the list of its
live entries (the prefix of length `vertexCount` in write order); stale
data past the cursor is never read by the source, so it is not modelled.
`drawCalls` is the trace of draw calls issued so far. -/
structure RendererState where
  maxSprites : Nat
  vertices : List Vertex
  vertexCount : Nat
  spriteCount : Nat
  currentTexture : Option Nat
  drawCalls : List DrawCall
  deriving DecidableEq, Repr

/-- `new SpriteRenderer(...)`: `maxSprites = 1000`, empty buffer, zero
counters, no active texture. -/
def RendererState.init : RendererState :=
  { maxSprites := 1000
    vertices := []
    vertexCount := 0
    spriteCount := 0
    currentTexture := none
    drawCalls := [] }

/-- `SpriteRenderer.begin()`. -/
def RendererState.begin (st : RendererState) : RendererState :=
  { st with
    vertexCount := 0
    spriteCount := 0
    currentTexture := none
    vertices := [] }

/-- `SpriteRenderer.flush()`: no-op on an empty batch, otherwise records
one draw call over the accumulated vertices and resets the cursor. -/
def RendererState.flush (st : RendererState) : RendererState :=
  if st.vertexCount = 0 then st
  else
    { st with
      drawCalls := st.drawCalls ++ [⟨st.vertices, st.currentTexture, st.vertexCount⟩]
      vertexCount := 0
      spriteCount := 0
      vertices := [] }

/-- The six vertices `drawSprite` appends for one sprite, in source order
(top-left, top-right, bottom-left; top-right, bottom-right, bottom-left),
with color `r,g,b = color[0..2]` and `a = color[3] * alpha`. -/
def Sprite.quad (s : Sprite) : List Vertex :=
  let x1 := s.x
  let y1 := s.y
  let x2 := s.x + s.width
  let y2 := s.y + s.height
  let u1 := s.texCoordX
  let v1 := s.texCoordY
  let u2 := s.texCoordX + s.texCoordWidth
  let v2 := s.texCoordY + s.texCoordHeight
  let r := s.color0
  let g := s.color1
  let b := s.color2
  let a := s.color3 * s.alpha
  [⟨x1, y1, u1, v1, r, g, b, a⟩, ⟨x2, y1, u2, v1, r, g, b, a⟩,
   ⟨x1, y2, u1, v2, r, g, b, a⟩, ⟨x2, y1, u2, v1, r, g, b, a⟩,
   ⟨x2, y2, u2, v2, r, g, b, a⟩, ⟨x1, y2, u1, v2, r, g, b, a⟩]

/-- The flush condition of `drawSprite`:
`this.spriteCount >= this.maxSprites || (this.currentTexture && sprite.texture !== this.currentTexture)`.
Note the JavaScript truthiness guard: a `null` active texture makes the
second disjunct false regardless of the incoming sprite's texture. -/
def RendererState.needsFlush (st : RendererState) (s : Sprite) : Bool :=
  decide (st.maxSprites ≤ st.spriteCount) ||
    (st.currentTexture.isSome && decide (s.texture ≠ st.currentTexture))

/-- `SpriteRenderer.drawSprite(sprite)`: skip invisible sprites, flush on
the trigger condition, adopt the sprite's texture, append the quad. -/
def RendererState.drawSprite (st : RendererState) (s : Sprite) : RendererState :=
  if s.visible = false then st
  else
    let st1 := if st.needsFlush s then st.flush else st
    { st1 with
      currentTexture := s.texture
      vertices := st1.vertices ++ s.quad
      vertexCount := st1.vertexCount + 6
      spriteCount := st1.spriteCount + 1 }

/-- `SpriteRenderer.end()` (renamed: `end` is a Lean keyword): flushes the
remainder. -/
def RendererState.endBatch (st : RendererState) : RendererState :=
  st.flush

/-- `begin(); for s in l: drawSprite(s); flush()` on a fresh renderer. -/
def runBatch (l : List Sprite) : RendererState :=
  (l.foldl RendererState.drawSprite RendererState.init.begin).flush

/-! ### Configuration constants (`src/utils/constants.js`) -/

def CONFIG_CANVAS_WIDTH : ℚ := 800

def CONFIG_ENEMY_ROWS : Nat := 5

def CONFIG_ENEMY_COLS : Nat := 11

def CONFIG_ENEMY_MOVE_SPEED : ℚ := 30

def CONFIG_ENEMY_MOVE_DELAY : ℚ := 4/5

def CONFIG_ENEMY_DROP_DISTANCE : ℚ := 20

/-! ### Enemy and EnemyFormation (`src/entities/enemy.js`) -/

/-- Embedding of `Enemy`: the fields used by the formation logic and the
per-enemy `update`.  `alive` is the liveness flag; `formationX/Y` is the
target position written by the formation; `x/y` the rendered position.
Type/point/sprite-name fields play no role in the verified logic and are
omitted. -/
structure Enemy where
  x : ℚ
  y : ℚ
  width : ℚ
  height : ℚ
  row : Nat
  col : Nat
  formationX : ℚ
  formationY : ℚ
  animationFrame : Nat
  animationTime : ℚ
  shootCooldown : ℚ
  alive : Bool
  deriving DecidableEq, Repr

/-- `Enemy.setFormationPosition(x, y)`. -/
def Enemy.setFormationPosition (e : Enemy) (fx fy : ℚ) : Enemy :=
  { e with formationX := fx, formationY := fy }

/-- `Enemy.update(deltaTime)`: animation toggle (animationSpeed = 0.3),
cooldown countdown, then copy the formation target into the rendered
position. -/
def Enemy.update (e : Enemy) (dt : ℚ) : Enemy :=
  if e.alive = false then e
  else
    let t := e.animationTime + dt
    let animTime : ℚ := if (3 : ℚ)/10 ≤ t then 0 else t
    let animFrame := if (3 : ℚ)/10 ≤ t then (e.animationFrame + 1) % 2 else e.animationFrame
    let cooldown := if 0 < e.shootCooldown then e.shootCooldown - dt else e.shootCooldown
    { e with
      animationTime := animTime
      animationFrame := animFrame
      shootCooldown := cooldown
      x := e.formationX
      y := e.formationY }

/-- `Enemy.destroy()`. -/
def Enemy.destroy (e : Enemy) : Enemy :=
  { e with alive := false }

/-- Embedding of `EnemyFormation`'s state. -/
structure EnemyFormation where
  enemies : List Enemy
  direction : ℤ
  moveTimer : ℚ
  moveDelay : ℚ
  leftBound : ℚ
  rightBound : ℚ
  deriving DecidableEq, Repr

/-- `new EnemyFormation()`: direction right, bounds 50 / canvas-50. -/
def EnemyFormation.init : EnemyFormation :=
  { enemies := []
    direction := 1
    moveTimer := 0
    moveDelay := CONFIG_ENEMY_MOVE_DELAY
    leftBound := 50
    rightBound := CONFIG_CANVAS_WIDTH - 50 }

/-- `EnemyFormation.getAliveEnemies()`. -/
def EnemyFormation.getAliveEnemies (f : EnemyFormation) : List Enemy :=
  f.enemies.filter (fun e => e.alive)

/-- Result of `getFormationBounds()`. -/
structure FormationBounds where
  left : ℚ
  right : ℚ
  top : ℚ
  bottom : ℚ
  deriving DecidableEq, Repr

/-- `EnemyFormation.getFormationBounds()`: axis-aligned bounding box of
the alive enemies, zeros when none.  The source folds `Math.min`/`Math.max`
starting from `±Infinity`; for a nonempty alive list that equals folding
from the first enemy's box, which is how the infinities are modelled here. -/
def EnemyFormation.getFormationBounds (f : EnemyFormation) : FormationBounds :=
  match f.getAliveEnemies with
  | [] => ⟨0, 0, 0, 0⟩
  | e :: rest =>
    rest.foldl
      (fun bs en =>
        ⟨min bs.left en.x, max bs.right (en.x + en.width),
         min bs.top en.y, max bs.bottom (en.y + en.height)⟩)
      ⟨e.x, e.x + e.width, e.y, e.y + e.height⟩

/-- `EnemyFormation.moveFormation()`: boundary test on the alive bounding
box decides between a pure vertical drop (with direction reversal) and a
pure horizontal step; only alive enemies have their formation targets
rewritten.  `newDir` equals the original direction whenever no drop
happens, so using it for the horizontal step matches the source, which
reassigns `this.direction` only inside the drop branches. -/
def EnemyFormation.moveFormation (f : EnemyFormation) : EnemyFormation :=
  if f.getAliveEnemies.length = 0 then f
  else
    let bounds := f.getFormationBounds
    let shouldDrop : Bool :=
      (decide (f.direction = 1) && decide (f.rightBound ≤ bounds.right)) ||
        (decide (f.direction = -1) && decide (bounds.left ≤ f.leftBound))
    let newDir : ℤ :=
      if f.direction = 1 ∧ f.rightBound ≤ bounds.right then -1
      else if f.direction = -1 ∧ bounds.left ≤ f.leftBound then 1
      else f.direction
    let newEnemies := f.enemies.map (fun e =>
      if e.alive then
        (if shouldDrop then
          e.setFormationPosition e.formationX (e.formationY + CONFIG_ENEMY_DROP_DISTANCE)
        else
          e.setFormationPosition (e.formationX + (f.direction : ℚ) * CONFIG_ENEMY_MOVE_SPEED)
            e.formationY)
      else e)
    { f with direction := newDir, enemies := newEnemies }

/-- `EnemyFormation.update(deltaTime)`: accumulate the move timer, fire at
most one discrete `moveFormation`, update the alive enemies, then
recompute `moveDelay = ENEMY_MOVE_DELAY * alive/(ROWS*COLS)` with floor
`0.1`. -/
def EnemyFormation.update (f : EnemyFormation) (dt : ℚ) : EnemyFormation :=
  let f1 : EnemyFormation := { f with moveTimer := f.moveTimer + dt }
  let f2 :=
    if f1.moveDelay ≤ f1.moveTimer then
      EnemyFormation.moveFormation { f1 with moveTimer := 0 }
    else f1
  let f3 : EnemyFormation :=
    { f2 with enemies := f2.enemies.map (fun e => if e.alive then e.update dt else e) }
  let total : ℚ := ((CONFIG_ENEMY_ROWS * CONFIG_ENEMY_COLS : Nat) : ℚ)
  let rr : ℚ := (f2.getAliveEnemies.length : ℚ) / total
  let nd := CONFIG_ENEMY_MOVE_DELAY * rr
  { f3 with moveDelay := if nd < 1/10 then 1/10 else nd }

/-- `Map.prototype.set` on an insertion-ordered association list: replace
in place if the key exists, else append. -/
def mapSetNat (m : List (Nat × Enemy)) (k : Nat) (v : Enemy) : List (Nat × Enemy) :=
  match m with
  | [] => [(k, v)]
  | (k', v') :: rest => if k' = k then (k, v) :: rest else (k', v') :: mapSetNat rest k v

/-- One step of the `getShooters` loop: keep, per column, the alive enemy
seen so far with the greatest row (strict `>` comparison). -/
def shooterStep (m : List (Nat × Enemy)) (e : Enemy) : List (Nat × Enemy) :=
  match m.lookup e.col with
  | none => mapSetNat m e.col e
  | some ex => if ex.row < e.row then mapSetNat m e.col e else m

/-- `EnemyFormation.getShooters()`: fold the alive enemies through the
column map (a JS `Map`, iterated in key-insertion order) and return its
values. -/
def EnemyFormation.getShooters (f : EnemyFormation) : List Enemy :=
  (f.getAliveEnemies.foldl shooterStep []).map Prod.snd

/-- `EnemyFormation.isCleared()`. -/
def EnemyFormation.isCleared (f : EnemyFormation) : Bool :=
  f.getAliveEnemies.length = 0

/-- `EnemyFormation.reset()`. -/
def EnemyFormation.reset (f : EnemyFormation) : EnemyFormation :=
  { f with direction := 1, moveTimer := 0, enemies := [] }

/-! ### AnimationComponent (`src/core/sprite-renderer.js`) -/

/-- Embedding of `AnimationComponent`'s mutable animation state together
with the configuration read from the animation block.  `frameDuration`
is the derived `1.0 / fps`.  Frame-name bookkeeping (`frameNames`,
texture lookups) does not influence the frame-index arithmetic and is
not modelled.  `currentFrame` is an integer so that `setFrame` can be
fed arbitrary (possibly negative) arguments, as in the source. -/
structure AnimationComponent where
  currentFrame : ℤ
  frameTime : ℚ
  isPlaying : Bool
  frameCount : ℤ
  fps : ℚ
  loop : Bool
  deriving DecidableEq, Repr

/-- `this.frameDuration = 1.0 / this.fps`. -/
def AnimationComponent.frameDuration (a : AnimationComponent) : ℚ :=
  1 / a.fps

/-- `AnimationComponent.update(deltaTime)`. -/
def AnimationComponent.update (a : AnimationComponent) (dt : ℚ) : AnimationComponent :=
  if a.isPlaying = false ∨ a.frameCount ≤ 1 then a
  else
    let ft := a.frameTime + dt
    if a.frameDuration ≤ ft then
      let ft2 := ft - a.frameDuration
      let cf := a.currentFrame + 1
      if a.frameCount ≤ cf then
        if a.loop then { a with frameTime := ft2, currentFrame := 0 }
        else { a with frameTime := ft2, currentFrame := a.frameCount - 1, isPlaying := false }
      else { a with frameTime := ft2, currentFrame := cf }
    else { a with frameTime := ft }

/-- `AnimationComponent.setFrame(frame)`:
`Math.max(0, Math.min(frame, this.frameCount - 1))`. -/
def AnimationComponent.setFrame (a : AnimationComponent) (n : ℤ) : AnimationComponent :=
  { a with currentFrame := max 0 (min n (a.frameCount - 1)), frameTime := 0 }

/-- `AnimationComponent.reset()`. -/
def AnimationComponent.reset (a : AnimationComponent) : AnimationComponent :=
  { a with currentFrame := 0, frameTime := 0, isPlaying := true }

/-- `AnimationComponent.play()`. -/
def AnimationComponent.play (a : AnimationComponent) : AnimationComponent :=
  { a with isPlaying := true }

/-- `AnimationComponent.pause()`. -/
def AnimationComponent.pause (a : AnimationComponent) : AnimationComponent :=
  { a with isPlaying := false }

/-- `AnimationComponent.stop()`. -/
def AnimationComponent.stop (a : AnimationComponent) : AnimationComponent :=
  { a with isPlaying := false, currentFrame := 0, frameTime := 0 }

/-- The public operations of `AnimationComponent` touched by the
frame-index invariant. -/
inductive AnimOp where
  | update (dt : ℚ)
  | setFrame (n : ℤ)
  | reset
  | play
  | pause
  | stop
  deriving DecidableEq, Repr

/-- Apply one operation. -/
def applyAnimOp (a : AnimationComponent) : AnimOp → AnimationComponent
  | .update dt => a.update dt
  | .setFrame n => a.setFrame n
  | .reset => a.reset
  | .play => a.play
  | .pause => a.pause
  | .stop => a.stop

/-! ### TextureManager (`src/core/texture-manager.js`)

The browser I/O surface (fetch, `Image` decoding, GL texture creation) is
abstracted into an *environment* `env : String → Option ImageAsset`
mapping a path to the image it yields, or `none` when the fetch/decode
fails (`image.onerror`).  The descriptor fetch is the `Option Atlas`
argument (`none` = fetch/parse failure).  Absent JSON fields are `Option`
fields; reading a property of an absent object (`atlas.meta.mode` with no
`meta`) is a thrown `TypeError`, i.e. `Except.error`. -/

/-- An image as produced by a successful load: the GL texture handle that
`createTextureFromImage` yields for it, plus pixel dimensions. -/
structure ImageAsset where
  tex : Nat
  width : ℚ
  height : ℚ
  deriving DecidableEq, Repr

/-- A UV sub-rectangle of a packed atlas. -/
structure UVRect where
  u0 : ℚ
  v0 : ℚ
  u1 : ℚ
  v1 : ℚ
  deriving DecidableEq, Repr

/-- One animation frame descriptor (only its `file` is read by the
loader). -/
structure AnimFrameData where
  file : String
  deriving DecidableEq, Repr

/-- An `animation` block as read by the loader. -/
structure AnimationData where
  frames : List AnimFrameData
  deriving DecidableEq, Repr

/-- One `sprites[name]` entry of the atlas descriptor. -/
structure SpriteData where
  file : String
  width : ℚ
  height : ℚ
  uv : Option UVRect
  animation : Option AnimationData
  deriving DecidableEq, Repr

/-- The `meta` block of the atlas descriptor; every field optional. -/
structure AtlasMeta where
  mode : Option String
  spritePath : Option String
  image : Option String
  atlasTexture : Option String
  deriving DecidableEq, Repr

/-- A parsed atlas descriptor: optional `meta` block plus the
`sprites` object (an ordered name → data mapping). -/
structure Atlas where
  meta : Option AtlasMeta
  sprites : List (String × SpriteData)
  deriving DecidableEq, Repr

/-- A value stored in `this.textures`: texture handle, dimensions, and
for packed-atlas aliases the UV rectangle and the alias flag. -/
structure TexEntry where
  texture : Nat
  width : ℚ
  height : ℚ
  uv : Option UVRect
  isAtlasSprite : Bool
  deriving DecidableEq, Repr

/-- `TextureManager` state: the name → entry map (a JS `Map`, modelled as
an insertion-ordered association list) and the load counters.
`spriteAtlas` (metadata cache) is not needed by the verified claims. -/
structure TMState where
  textures : List (String × TexEntry)
  loadedCount : Nat
  totalCount : Nat
  deriving DecidableEq, Repr

/-- `new TextureManager(gl)`. -/
def TMState.init : TMState :=
  { textures := [], loadedCount := 0, totalCount := 0 }

/-- `Map.prototype.set` on the texture map. -/
def mapSetStr (m : List (String × TexEntry)) (k : String) (v : TexEntry) :
    List (String × TexEntry) :=
  match m with
  | [] => [(k, v)]
  | (k', v') :: rest => if k' = k then (k, v) :: rest else (k', v') :: mapSetStr rest k v

/-- `loadTexture(name, path)` without a catch: registers the entry and
bumps `loadedCount` on success, rejects on image error. -/
def TMState.loadTexture (tm : TMState) (env : String → Option ImageAsset)
    (name path : String) : Except String TMState :=
  match env path with
  | some img =>
    .ok { tm with
          textures := mapSetStr tm.textures name ⟨img.tex, img.width, img.height, none, false⟩
          loadedCount := tm.loadedCount + 1 }
  | none => .error ("Failed to load texture: " ++ path)

/-- `loadTexture(name, path).catch(err => null)`: the per-sprite soft
failure used by `loadIndividualSprites` — a failed image leaves the
state unchanged. -/
def TMState.loadTextureSoft (tm : TMState) (env : String → Option ImageAsset)
    (name path : String) : TMState :=
  match tm.loadTexture env name path with
  | .ok tm' => tm'
  | .error _ => tm

/-- `frameData.file.replace('.png', '')`: JavaScript string `replace`
with a string pattern replaces only the first occurrence. -/
def replaceFirst (s pat rep : String) : String :=
  match s.splitOn pat with
  | [] => s
  | [_] => s
  | x :: rest => x ++ rep ++ String.intercalate pat rest

/-- The (name, fullPath) load jobs of `loadIndividualSprites`, in the
order the source creates the promises: for each sprite its base image,
then its declared animation frames. -/
def spriteJobs (basePath spritePath : String) (sprites : List (String × SpriteData)) :
    List (String × String) :=
  sprites.flatMap (fun p =>
    (p.1, basePath ++ spritePath ++ p.2.file) ::
      (match p.2.animation with
       | none => []
       | some ad => ad.frames.map (fun fr =>
           (replaceFirst fr.file ".png" "", basePath ++ spritePath ++ fr.file))))

/-- The `totalCount` computed by `loadIndividualSprites`: base sprites
plus all declared animation frames. -/
def atlasTotalTextures (sprites : List (String × SpriteData)) : Nat :=
  sprites.length +
    (sprites.map (fun p =>
      match p.2.animation with
      | none => 0
      | some ad => ad.frames.length)).sum

/-- `loadIndividualSprites(basePath, atlas)`: every job is loaded with a
per-sprite catch, so the whole pass always resolves.  The concurrent
`Promise.all` is modelled as a fold over the jobs; distinct names make
the completion order irrelevant to the final map. -/
def loadIndividualSprites (env : String → Option ImageAsset) (basePath : String)
    (atlas : Atlas) (meta : AtlasMeta) (tm : TMState) : TMState :=
  let spritePath := meta.spritePath.getD (meta.image.getD "sprites/")
  let tm1 := { tm with totalCount := atlasTotalTextures atlas.sprites }
  (spriteJobs basePath spritePath atlas.sprites).foldl
    (fun t job => t.loadTextureSoft env job.1 job.2) tm1

/-- `loadPackedAtlas(basePath, atlas)`: one un-caught load of the shared
atlas image (its failure rejects the whole pass), then zero-cost aliases
for every sprite entry that carries a `uv` rectangle. -/
def loadPackedAtlas (env : String → Option ImageAsset) (basePath : String)
    (atlas : Atlas) (meta : AtlasMeta) (tm : TMState) : Except String TMState :=
  let path := basePath ++ meta.atlasTexture.getD "undefined"
  match env path with
  | none => .error ("Failed to load texture: " ++ path)
  | some img =>
    let entry : TexEntry := ⟨img.tex, img.width, img.height, none, false⟩
    let tm1 : TMState :=
      { tm with
        textures := mapSetStr tm.textures "__atlas__" entry
        loadedCount := tm.loadedCount + 1 }
    let tm2 : TMState := { tm1 with totalCount := atlas.sprites.length }
    .ok (atlas.sprites.foldl
      (fun t p =>
        match p.2.uv with
        | some uvr =>
          { t with
            textures := mapSetStr t.textures p.1 ⟨img.tex, p.2.width, p.2.height, some uvr, true⟩
            loadedCount := t.loadedCount + 1 }
        | none => t) tm2)

/-- `loadSpriteAtlas(atlasPath)`: fetch failure or a missing `meta` block
(a `TypeError` on `atlas.meta.mode`) rejects the whole load; otherwise
dispatch on `atlas.meta.mode || 'individual'` — only the exact string
`'packed'` selects the packed loader, every other value falls through to
the individual loader.  `basePath` is the directory prefix the source
slices off `atlasPath`. -/
def loadSpriteAtlas (env : String → Option ImageAsset) (fetched : Option Atlas)
    (basePath : String) (tm : TMState) : Except String TMState :=
  match fetched with
  | none => .error "Failed to load sprite atlas"
  | some atlas =>
    match atlas.meta with
    | none => .error "TypeError: cannot read properties of undefined (reading mode)"
    | some meta =>
      let mode := meta.mode.getD "individual"
      if mode = "packed" then loadPackedAtlas env basePath atlas meta tm
      else .ok (loadIndividualSprites env basePath atlas meta tm)

/-- `getTexture(name)`. -/
def TMState.getTexture (tm : TMState) (name : String) : Option Nat :=
  (tm.textures.lookup name).map (fun e => e.texture)

/-- `hasTexture(name)`. -/
def TMState.hasTexture (tm : TMState) (name : String) : Bool :=
  (tm.textures.lookup name).isSome

/-! ### Renderer call sequences (for the buffer-safety claim) -/

/-- The public renderer calls a frame may issue. -/
inductive RenderOp where
  | beginBatch
  | draw (s : Sprite)
  | flushBatch
  | endBatch
  deriving Repr

/-- Apply one renderer call. -/
def applyRenderOp (st : RendererState) : RenderOp → RendererState
  | .beginBatch => st.begin
  | .draw s => st.drawSprite s
  | .flushBatch => st.flush
  | .endBatch => st.endBatch

/-- Run a call sequence on a freshly constructed renderer. -/
def runRenderOps (ops : List RenderOp) : RendererState :=
  ops.foldl applyRenderOp RendererState.init

/-- The scratch-buffer float indices `drawSprite(s)` writes in state
`st`: the source computes `idx = this.vertexCount * 8` after the flush
decision and stores `idx + 0 .. idx + 47`. -/
def drawWriteIndices (st : RendererState) (s : Sprite) : List Nat :=
  if s.visible = false then []
  else
    let st1 := if st.needsFlush s then st.flush else st
    (List.range 48).map (fun i => st1.vertexCount * 8 + i)

/-! ### Concrete fixtures used by witnesses and counterexamples -/

/-- A visible, textureless 10×10 sprite at the origin. -/
def sprNoTex : Sprite :=
  { x := 0, y := 0, width := 10, height := 10, color0 := 1, color1 := 1, color2 := 1,
    color3 := 1, texCoordX := 0, texCoordY := 0, texCoordWidth := 1, texCoordHeight := 1,
    texture := none, visible := true, alpha := 1 }

/-- The same sprite carrying texture handle `t`. -/
def sprTex (t : Nat) : Sprite :=
  { sprNoTex with texture := some t }

/-- A fresh renderer after `begin()` and one textureless `drawSprite`:
a nonempty batch accumulated under the implicit "no texture" bucket. -/
def stAfterNoTex : RendererState :=
  RendererState.init.begin.drawSprite sprNoTex

/-- An alive 40×40 enemy at a given position and grid cell. -/
def enemyAt (px py : ℚ) (r c : Nat) : Enemy :=
  { x := px, y := py, width := 40, height := 40, row := r, col := c, formationX := px,
    formationY := py, animationFrame := 0, animationTime := 0, shootCooldown := 0,
    alive := true }

/-- A right-moving formation whose bounding box (right edge 760) already
exceeds the right bound 750. -/
def formAtRight : EnemyFormation :=
  { EnemyFormation.init with enemies := [enemyAt 720 80 0 0] }

/-- A one-enemy formation far from both bounds. -/
def formMid : EnemyFormation :=
  { EnemyFormation.init with enemies := [enemyAt 400 80 0 0] }

/-- `formMid` with its only enemy dead. -/
def formMidDead : EnemyFormation :=
  { EnemyFormation.init with enemies := [(enemyAt 400 80 0 0).destroy] }

/-- A formation with one column holding alive enemies at rows 0 and 2
(row 4 already destroyed), plus a second column. -/
def formCols : EnemyFormation :=
  { EnemyFormation.init with
    enemies := [enemyAt 100 80 0 0, enemyAt 100 170 2 0,
                (enemyAt 100 260 4 0).destroy, enemyAt 155 80 0 1] }

/-- A looping three-frame animation at 10 fps, currently on frame 2. -/
def animLoop3 : AnimationComponent :=
  { currentFrame := 2, frameTime := 0, isPlaying := true, frameCount := 3, fps := 10,
    loop := true }

/-- A well-formed individual-mode atlas declaring three sprites. -/
def atlasThree : Atlas :=
  { meta := some { mode := some "individual", spritePath := some "sprites/",
                   image := none, atlasTexture := none }
    sprites := [("ship", ⟨"ship.png", 40, 30, none, none⟩),
                ("sheep-enemy", ⟨"sheep-enemy.png", 40, 40, none, none⟩),
                ("goat-enemy", ⟨"goat-enemy.png", 40, 40, none, none⟩)] }

/-- `atlasThree` with its `meta.mode` set to a value that is neither
`'individual'` nor `'packed'`. -/
def atlasBogusMode : Atlas :=
  { atlasThree with
    meta := some { mode := some "bogus", spritePath := some "sprites/",
                   image := none, atlasTexture := none } }

/-- An environment where `sheep-enemy.png` fails to load and the other
two declared images succeed. -/
def envTwoOfThree : String → Option ImageAsset :=
  fun p =>
    if p = "sprites/ship.png" then some ⟨1, 40, 30⟩
    else if p = "sprites/goat-enemy.png" then some ⟨2, 40, 40⟩
    else none

/-- The reachable-state invariant of the renderer: the constructor's
`maxSprites = 1000`, the vertex cursor is six floats-per-vertex rows per
accumulated sprite, and the batch never holds more than `maxSprites`
sprites. -/
def rendererInv (st : RendererState) : Prop :=
  st.maxSprites = 1000 ∧ st.vertexCount = 6 * st.spriteCount ∧ st.spriteCount ≤ 1000

/-- Loop invariant of the `getShooters` fold: after the enemies in
`processed` have been folded into the column map `m`, the map has
distinct keys, every entry holds a processed enemy of its key's column
with row maximal among processed enemies of that column, and every
processed enemy's column has an entry. -/
def shootersInv (processed : List Enemy) (m : List (Nat × Enemy)) : Prop :=
  ((m.map Prod.fst).Nodup) ∧
  (∀ q ∈ m, q.2 ∈ processed ∧ q.2.col = q.1 ∧
    ∀ x ∈ processed, x.col = q.1 → x.row ≤ q.2.row) ∧
  (∀ x ∈ processed, ∃ q ∈ m, q.1 = x.col)


/-- **C2**: if the formation has a living enemy and its bounding box
reaches/exceeds `rightBound` while moving right (symmetrically, reaches
`leftBound` while moving left), the next discrete formation move drops
every living enemy's target position by exactly `ENEMY_DROP_DISTANCE`,
reverses the direction, and performs zero horizontal displacement that
tick: the enemy list is rewritten by a pure vertical update only. -/
theorem moveFormation_boundary_drop (f : EnemyFormation)
    (h : f.getAliveEnemies ≠ []) :
    (f.direction = 1 → f.rightBound ≤ f.getFormationBounds.right →
      f.moveFormation =
        { f with
          direction := -1
          enemies := f.enemies.map (fun e =>
            if e.alive then { e with formationY := e.formationY + CONFIG_ENEMY_DROP_DISTANCE }
            else e) }) ∧
    (f.direction = -1 → f.getFormationBounds.left ≤ f.leftBound →
      f.moveFormation =
        { f with
          direction := 1
          enemies := f.enemies.map (fun e =>
            if e.alive then { e with formationY := e.formationY + CONFIG_ENEMY_DROP_DISTANCE }
            else e) }) := by
  have hlen : ¬ f.getAliveEnemies.length = 0 := by
    simpa [List.length_eq_zero] using h
  constructor
  · intro hdir hb
    unfold EnemyFormation.moveFormation
    rw [if_neg hlen]
    simp only [hdir, Enemy.setFormationPosition]
    norm_num [hb]
  · intro hdir hb
    unfold EnemyFormation.moveFormation
    rw [if_neg hlen]
    simp only [hdir, Enemy.setFormationPosition]
    norm_num [hb]

/-- Witness for `moveFormation_boundary_drop` at the concrete formation
`formAtRight` (one alive enemy spanning x ∈ [720, 760], right bound 750,
moving right). -/
theorem moveFormation_boundary_drop_witness :
    formAtRight.moveFormation =
      { formAtRight with
        direction := -1
        enemies := formAtRight.enemies.map (fun e =>
          if e.alive then { e with formationY := e.formationY + CONFIG_ENEMY_DROP_DISTANCE }
          else e) } :=
  (moveFormation_boundary_drop formAtRight
      (by norm_num [formAtRight, EnemyFormation.getAliveEnemies, EnemyFormation.init, enemyAt])).1
    (by norm_num [formAtRight, EnemyFormation.init])
    (by norm_num [formAtRight, enemyAt, EnemyFormation.init, EnemyFormation.getFormationBounds,
      EnemyFormation.getAliveEnemies, CONFIG_CANVAS_WIDTH])

lemma alive_filter_map_length (g : Enemy → Enemy) (hg : ∀ e, (g e).alive = e.alive)
    (l : List Enemy) :
    ((l.map g).filter (fun e => e.alive)).length = (l.filter (fun e => e.alive)).length := by
  induction l with
  | nil => rfl
  | cons e rest ih =>
    by_cases he : e.alive <;> simp [List.filter_cons, hg, he, ih]

lemma moveFormation_alive_length (f : EnemyFormation) :
    f.moveFormation.getAliveEnemies.length = f.getAliveEnemies.length := by
  unfold EnemyFormation.moveFormation
  split
  · rfl
  · exact alive_filter_map_length _
      (by
        intro e
        by_cases he : e.alive <;>
          simp [he, Enemy.setFormationPosition] <;> split <;> rfl)
      f.enemies

lemma update_moveDelay_eq (f : EnemyFormation) (dt : ℚ) :
    (f.update dt).moveDelay =
      max (1/10 : ℚ)
        (CONFIG_ENEMY_MOVE_DELAY *
          ((f.getAliveEnemies.length : ℚ) /
            ((CONFIG_ENEMY_ROWS * CONFIG_ENEMY_COLS : Nat) : ℚ))) := by
  have key : ∀ n : ℕ, n = f.getAliveEnemies.length →
      (if CONFIG_ENEMY_MOVE_DELAY *
            ((n : ℚ) / ((CONFIG_ENEMY_ROWS * CONFIG_ENEMY_COLS : Nat) : ℚ)) < 1/10
        then (1/10 : ℚ)
        else CONFIG_ENEMY_MOVE_DELAY *
            ((n : ℚ) / ((CONFIG_ENEMY_ROWS * CONFIG_ENEMY_COLS : Nat) : ℚ))) =
        max (1/10 : ℚ)
          (CONFIG_ENEMY_MOVE_DELAY *
            ((f.getAliveEnemies.length : ℚ) /
              ((CONFIG_ENEMY_ROWS * CONFIG_ENEMY_COLS : Nat) : ℚ))) := by
    intro n hn
    subst hn
    split
    · next hlt => exact (max_eq_left hlt.le).symm
    · next hge => exact (max_eq_right (not_lt.mp hge)).symm
  simp only [EnemyFormation.update]
  split
  · exact key _ (by rw [moveFormation_alive_length]; rfl)
  · exact key _ rfl

/-- **C5**: every `EnemyFormation.update` tick recomputes the move delay
as `ENEMY_MOVE_DELAY * (aliveCount / (ENEMY_ROWS * ENEMY_COLS))` clamped
below at `0.1` (the total count of the full formation grid); hence a
formation with strictly fewer living enemies gets a delay ≤ that of one
with more. -/
theorem update_moveDelay_recomputed_mono (fA fB : EnemyFormation) (dtA dtB : ℚ)
    (h : fB.getAliveEnemies.length < fA.getAliveEnemies.length) :
    ((fA.update dtA).moveDelay =
        max (1/10 : ℚ)
          (CONFIG_ENEMY_MOVE_DELAY *
            ((fA.getAliveEnemies.length : ℚ) /
              ((CONFIG_ENEMY_ROWS * CONFIG_ENEMY_COLS : Nat) : ℚ)))) ∧
      (fB.update dtB).moveDelay ≤ (fA.update dtA).moveDelay := by
  refine ⟨update_moveDelay_eq fA dtA, ?_⟩
  rw [update_moveDelay_eq, update_moveDelay_eq]
  apply max_le_max le_rfl
  apply mul_le_mul_of_nonneg_left _ (by norm_num [CONFIG_ENEMY_MOVE_DELAY])
  exact (div_le_div_right (by norm_num [CONFIG_ENEMY_ROWS, CONFIG_ENEMY_COLS])).mpr
    (by exact_mod_cast h.le)

/-- Witness for `update_moveDelay_recomputed_mono`: `formMid` has one
living enemy, `formMidDead` zero. -/
theorem update_moveDelay_recomputed_mono_witness :
    ((formMid.update 0).moveDelay =
        max (1/10 : ℚ)
          (CONFIG_ENEMY_MOVE_DELAY *
            ((formMid.getAliveEnemies.length : ℚ) /
              ((CONFIG_ENEMY_ROWS * CONFIG_ENEMY_COLS : Nat) : ℚ)))) ∧
      (formMidDead.update 0).moveDelay ≤ (formMid.update 0).moveDelay :=
  update_moveDelay_recomputed_mono formMid formMidDead 0 0
    (by simp [formMid, formMidDead, EnemyFormation.getAliveEnemies, EnemyFormation.init,
      enemyAt, Enemy.destroy])

/-- **C8**: for every visible sprite, `drawSprite` appends exactly its
six-vertex quad, and each of those vertices carries `r,g,b` equal to the
sprite's tint RGB unchanged and `a` equal to tint alpha times the
sprite's opacity. -/
theorem drawSprite_tint_alpha (st : RendererState) (s : Sprite) (h : s.visible = true) :
    (∃ pre, (st.drawSprite s).vertices = pre ++ s.quad) ∧
      ∀ v ∈ s.quad,
        v.r = s.color0 ∧ v.g = s.color1 ∧ v.b = s.color2 ∧ v.a = s.color3 * s.alpha := by
  constructor
  · unfold RendererState.drawSprite
    rw [if_neg (by simp [h])]
    exact ⟨_, rfl⟩
  · intro v hv
    simp only [Sprite.quad, List.mem_cons, List.mem_singleton, List.not_mem_nil, or_false] at hv
    rcases hv with rfl | rfl | rfl | rfl | rfl | rfl <;> exact ⟨rfl, rfl, rfl, rfl⟩

/-- Witness for `drawSprite_tint_alpha`: a fresh renderer and the
concrete textured sprite `sprTex 1` with opacity 1. -/
theorem drawSprite_tint_alpha_witness :
    (∃ pre, (RendererState.init.drawSprite (sprTex 1)).vertices = pre ++ (sprTex 1).quad) ∧
      ∀ v ∈ (sprTex 1).quad,
        v.r = (sprTex 1).color0 ∧ v.g = (sprTex 1).color1 ∧ v.b = (sprTex 1).color2 ∧
          v.a = (sprTex 1).color3 * (sprTex 1).alpha :=
  drawSprite_tint_alpha RendererState.init (sprTex 1) (by simp [sprTex, sprNoTex])

/-- **C9**: with `frameCount ≥ 1` the frame index stays in
`[0, frameCount)` across every operation (update with non-negative dt,
setFrame with any integer, reset, play, pause, stop); on overflow
`update` wraps to 0 when looping, else clamps to `frameCount - 1` and
stops; `setFrame` clamps its argument into range. -/
theorem animation_frame_in_range (a : AnimationComponent) (op : AnimOp)
    (hfc : 1 ≤ a.frameCount)
    (h0 : 0 ≤ a.currentFrame) (h1 : a.currentFrame < a.frameCount)
    (hdt : ∀ dt, op = .update dt → 0 ≤ dt) :
    (0 ≤ (applyAnimOp a op).currentFrame ∧
      (applyAnimOp a op).currentFrame < (applyAnimOp a op).frameCount) ∧
    (∀ dt, op = .update dt →
      a.isPlaying = true → 1 < a.frameCount → a.frameDuration ≤ a.frameTime + dt →
      a.frameCount ≤ a.currentFrame + 1 →
      ((a.loop = true → (applyAnimOp a op).currentFrame = 0) ∧
        (a.loop = false → (applyAnimOp a op).currentFrame = a.frameCount - 1 ∧
          (applyAnimOp a op).isPlaying = false))) ∧
    (∀ n, op = .setFrame n →
      (applyAnimOp a op).currentFrame = max 0 (min n (a.frameCount - 1))) := by
  refine ⟨?_, ?_, ?_⟩
  · cases op with
    | update dt =>
      simp only [applyAnimOp, AnimationComponent.update]
      split
      · exact ⟨h0, h1⟩
      · split
        · split
          · split
            · constructor <;> simp <;> omega
            · constructor <;> simp <;> omega
          · constructor <;> simp <;> omega
        · exact ⟨h0, h1⟩
    | setFrame n =>
      constructor
      · show (0 : ℤ) ≤ max 0 (min n (a.frameCount - 1))
        omega
      · show max 0 (min n (a.frameCount - 1)) < a.frameCount
        omega
    | reset =>
      constructor <;> simp [applyAnimOp, AnimationComponent.reset] <;> omega
    | play => exact ⟨h0, h1⟩
    | pause => exact ⟨h0, h1⟩
    | stop =>
      constructor <;> simp [applyAnimOp, AnimationComponent.stop] <;> omega
  · intro dt heq hp hfc1 hdur hov
    subst heq
    simp only [applyAnimOp, AnimationComponent.update]
    rw [if_neg (by simp [hp]; omega)]
    rw [if_pos hdur, if_pos hov]
    constructor
    · intro hloop
      rw [if_pos hloop]
    · intro hloop
      rw [if_neg (by simp [hloop])]
      exact ⟨rfl, rfl⟩
  · intro n heq
    subst heq
    rfl

/-- Witness for `animation_frame_in_range`: the concrete looping
component `animLoop3` (frame 2 of 3) stepped by `dt = 1/10`. -/
theorem animation_frame_in_range_witness :
    (0 ≤ (applyAnimOp animLoop3 (.update (1/10))).currentFrame ∧
      (applyAnimOp animLoop3 (.update (1/10))).currentFrame <
        (applyAnimOp animLoop3 (.update (1/10))).frameCount) ∧
    (∀ dt, AnimOp.update (1/10) = .update dt →
      animLoop3.isPlaying = true → 1 < animLoop3.frameCount →
      animLoop3.frameDuration ≤ animLoop3.frameTime + dt →
      animLoop3.frameCount ≤ animLoop3.currentFrame + 1 →
      ((animLoop3.loop = true →
          (applyAnimOp animLoop3 (.update (1/10))).currentFrame = 0) ∧
        (animLoop3.loop = false →
          (applyAnimOp animLoop3 (.update (1/10))).currentFrame = animLoop3.frameCount - 1 ∧
          (applyAnimOp animLoop3 (.update (1/10))).isPlaying = false))) ∧
    (∀ n, AnimOp.update (1/10) = .setFrame n →
      (applyAnimOp animLoop3 (.update (1/10))).currentFrame =
        max 0 (min n (animLoop3.frameCount - 1))) :=
  animation_frame_in_range animLoop3 (.update (1/10))
    (by norm_num [animLoop3]) (by norm_num [animLoop3]) (by norm_num [animLoop3])
    (by intro dt h; cases h; norm_num)

/-- **C1 (counterexample)**: after accumulating a textureless sprite the
active texture is `null` and the incoming textured sprite's texture
differs from it, yet `drawSprite` does *not* flush: no draw call is
issued and both sprites end up in the same batch (spriteCount = 2).
This refutes the claim that a texture change away from the "no texture"
bucket flushes the textureless batch first. -/
theorem drawSprite_noTexture_bucket_counterexample :
    (stAfterNoTex.vertexCount = 6 ∧
      stAfterNoTex.currentTexture = none ∧
      (sprTex 7).texture ≠ stAfterNoTex.currentTexture) ∧
    (stAfterNoTex.drawSprite (sprTex 7)).drawCalls = [] ∧
    (stAfterNoTex.drawSprite (sprTex 7)).spriteCount = 2 := by
  norm_num [stAfterNoTex, RendererState.drawSprite, RendererState.needsFlush,
    RendererState.begin, RendererState.init, RendererState.flush, sprNoTex, sprTex]
  exact Option.some_ne_none 7

/-- **C1 (amended)**: for a visible sprite, `drawSprite` flushes before
appending *iff* the batch is at sprite capacity, or the batch's active
texture is non-null and differs from the incoming sprite's texture; in
either case it then accumulates under the incoming sprite's texture.  In
particular a textured sprite arriving after only textureless accumulation
does not flush (the textureless quads are carried into the textured
batch), while a textureless sprite arriving after textured accumulation
does. -/
theorem drawSprite_flush_trigger (st : RendererState) (s : Sprite) (hv : s.visible = true) :
    (st.needsFlush s = true ↔
      (st.maxSprites ≤ st.spriteCount ∨
        (st.currentTexture.isSome = true ∧ s.texture ≠ st.currentTexture))) ∧
    (st.drawSprite s).currentTexture = s.texture ∧
    (st.needsFlush s = true →
      (st.drawSprite s).drawCalls = st.flush.drawCalls ∧
      (st.drawSprite s).vertices = st.flush.vertices ++ s.quad) ∧
    (st.needsFlush s = false →
      (st.drawSprite s).drawCalls = st.drawCalls ∧
      (st.drawSprite s).vertices = st.vertices ++ s.quad) := by
  refine ⟨?_, ?_, ?_, ?_⟩
  · simp [RendererState.needsFlush]
  · unfold RendererState.drawSprite
    rw [if_neg (by simp [hv])]
  · intro h
    unfold RendererState.drawSprite
    rw [if_neg (by simp [hv])]
    simp [h]
  · intro h
    unfold RendererState.drawSprite
    rw [if_neg (by simp [hv])]
    simp [h]

/-- Witness for `drawSprite_flush_trigger` at the concrete no-flush pair
(`stAfterNoTex`, textured sprite): the textureless batch is kept. -/
theorem drawSprite_flush_trigger_witness :
    ((stAfterNoTex.needsFlush (sprTex 7) = true ↔
      (stAfterNoTex.maxSprites ≤ stAfterNoTex.spriteCount ∨
        (stAfterNoTex.currentTexture.isSome = true ∧
          (sprTex 7).texture ≠ stAfterNoTex.currentTexture))) ∧
    (stAfterNoTex.drawSprite (sprTex 7)).currentTexture = (sprTex 7).texture ∧
    (stAfterNoTex.needsFlush (sprTex 7) = true →
      (stAfterNoTex.drawSprite (sprTex 7)).drawCalls = stAfterNoTex.flush.drawCalls ∧
      (stAfterNoTex.drawSprite (sprTex 7)).vertices =
        stAfterNoTex.flush.vertices ++ (sprTex 7).quad) ∧
    (stAfterNoTex.needsFlush (sprTex 7) = false →
      (stAfterNoTex.drawSprite (sprTex 7)).drawCalls = stAfterNoTex.drawCalls ∧
      (stAfterNoTex.drawSprite (sprTex 7)).vertices =
        stAfterNoTex.vertices ++ (sprTex 7).quad)) :=
  drawSprite_flush_trigger stAfterNoTex (sprTex 7) (by norm_num [sprTex, sprNoTex])

lemma foldl_drawSprite_sameTexture (t : Nat) :
    ∀ (l : List Sprite) (st : RendererState),
      (∀ s ∈ l, s.visible = true) → (∀ s ∈ l, s.texture = some t) →
      st.maxSprites = 1000 → st.currentTexture = some t →
      st.spriteCount + l.length ≤ 1000 →
      l.foldl RendererState.drawSprite st =
        { st with
          vertices := st.vertices ++ l.flatMap Sprite.quad
          vertexCount := st.vertexCount + 6 * l.length
          spriteCount := st.spriteCount + l.length
          currentTexture := some t }
  | [], st => by
    intro _ _ _ hcur _
    rw [← hcur]
    simp
  | s :: rest, st => by
    intro hvis htex hmax hcur hcap
    have hmem : s ∈ s :: rest := List.mem_cons_self s rest
    have hlt : ¬ (1000 ≤ st.spriteCount) := by
      simp only [List.length_cons] at hcap
      omega
    have hnf : st.needsFlush s = false := by
      simp [RendererState.needsFlush, hmax, hcur, htex s hmem, hlt]
    have hs : st.drawSprite s =
        { st with
          currentTexture := some t
          vertices := st.vertices ++ s.quad
          vertexCount := st.vertexCount + 6
          spriteCount := st.spriteCount + 1 } := by
      unfold RendererState.drawSprite
      rw [if_neg (by simp [hvis s hmem])]
      simp [hnf, htex s hmem]
    rw [List.foldl_cons, hs,
      foldl_drawSprite_sameTexture t rest
        { st with
          currentTexture := some t
          vertices := st.vertices ++ s.quad
          vertexCount := st.vertexCount + 6
          spriteCount := st.spriteCount + 1 }
        (fun x hx => hvis x (List.mem_cons_of_mem s hx))
        (fun x hx => htex x (List.mem_cons_of_mem s hx))
        hmax rfl
        (by
          show st.spriteCount + 1 + rest.length ≤ 1000
          simp only [List.length_cons] at hcap
          omega)]
    have hv : (st.vertices ++ s.quad) ++ rest.flatMap Sprite.quad =
        st.vertices ++ (s :: rest).flatMap Sprite.quad := by
      simp
    have hvc : st.vertexCount + 6 + 6 * rest.length =
        st.vertexCount + 6 * (s :: rest).length := by
      simp only [List.length_cons]
      omega
    have hsc : st.spriteCount + 1 + rest.length = st.spriteCount + (s :: rest).length := by
      simp only [List.length_cons]
      omega
    rw [hv, hvc, hsc]

/-- **C3 (amended)**: for a *nonempty* sequence of at most 1000 visible
sprites sharing one texture, `begin`; `drawSprite` each; `flush` issues
exactly one draw call, covering exactly `6·N` vertices, whose vertex
stream is the concatenation of the sprites' quads in call order. -/
theorem singleTexture_single_drawCall (l : List Sprite) (t : Nat)
    (hvis : ∀ s ∈ l, s.visible = true) (htex : ∀ s ∈ l, s.texture = some t)
    (hne : l ≠ []) (hcap : l.length ≤ 1000) :
    (runBatch l).drawCalls = [⟨l.flatMap Sprite.quad, some t, 6 * l.length⟩] := by
  obtain ⟨s0, rest, rfl⟩ := List.exists_cons_of_ne_nil hne
  have hmem0 : s0 ∈ s0 :: rest := List.mem_cons_self s0 rest
  have h0 : RendererState.init.begin.drawSprite s0 =
      { RendererState.init.begin with
        currentTexture := some t
        vertices := s0.quad
        vertexCount := 6
        spriteCount := 1 } := by
    unfold RendererState.drawSprite
    rw [if_neg (by simp [hvis s0 hmem0])]
    have hnf : RendererState.init.begin.needsFlush s0 = false := by
      simp [RendererState.needsFlush, RendererState.begin, RendererState.init]
    simp only [hnf, Bool.false_eq_true, if_false]
    simp [htex s0 hmem0, RendererState.begin, RendererState.init]
  unfold runBatch
  rw [List.foldl_cons, h0,
    foldl_drawSprite_sameTexture t rest
      { RendererState.init.begin with
        currentTexture := some t
        vertices := s0.quad
        vertexCount := 6
        spriteCount := 1 }
      (fun x hx => hvis x (List.mem_cons_of_mem s0 hx))
      (fun x hx => htex x (List.mem_cons_of_mem s0 hx))
      rfl rfl
      (by
        show 1 + rest.length ≤ 1000
        simp only [List.length_cons] at hcap
        omega)]
  unfold RendererState.flush
  rw [if_neg (by simp)]
  have hq : s0.quad ++ rest.flatMap Sprite.quad = (s0 :: rest).flatMap Sprite.quad := by
    simp
  have hn : 6 + 6 * rest.length = 6 * (s0 :: rest).length := by
    simp only [List.length_cons]
    omega
  rw [← hq, ← hn]
  simp [RendererState.begin, RendererState.init]

/-- **C3 (counterexample)**: the empty sequence satisfies the claim's
hypotheses vacuously (N = 0 ≤ 1000, every sprite visible and sharing
texture 0), yet `flush` issues *zero* draw calls, not exactly one:
`flush()` early-returns on an empty batch. -/
theorem singleTexture_empty_batch_counterexample :
    (∀ s ∈ ([] : List Sprite), s.visible = true ∧ s.texture = some 0) ∧
    ([] : List Sprite).length ≤ 1000 ∧
    (runBatch ([] : List Sprite)).drawCalls.length = 0 := by
  refine ⟨fun s hs => absurd hs (List.not_mem_nil s), by simp, by decide⟩

/-- Witness for `singleTexture_single_drawCall`: two copies of the
textured sprite `sprTex 3` produce one draw call of 12 vertices. -/
theorem singleTexture_single_drawCall_witness :
    (runBatch [sprTex 3, sprTex 3]).drawCalls =
      [⟨[sprTex 3, sprTex 3].flatMap Sprite.quad, some 3,
        6 * [sprTex 3, sprTex 3].length⟩] :=
  singleTexture_single_drawCall [sprTex 3, sprTex 3] 3
    (by simp [sprTex, sprNoTex]) (by simp [sprTex, sprNoTex])
    (by simp) (by simp)

lemma rendererInv_flush (st : RendererState) (h : rendererInv st) : rendererInv st.flush := by
  obtain ⟨h1, h2, h3⟩ := h
  unfold RendererState.flush
  split
  · exact ⟨h1, h2, h3⟩
  · exact ⟨h1, by simp, by simp⟩

lemma preAppend_spriteCount_lt (st : RendererState) (s : Sprite) (h : rendererInv st) :
    (if st.needsFlush s then st.flush else st).spriteCount < 1000 := by
  obtain ⟨h1, h2, h3⟩ := h
  by_cases hful : 1000 ≤ st.spriteCount
  · rw [if_pos (by simp [RendererState.needsFlush, h1, hful])]
    unfold RendererState.flush
    rw [if_neg (by omega)]
    simp
  · split
    · unfold RendererState.flush
      split
      · omega
      · simp
    · omega

lemma rendererInv_append (st1 : RendererState) (s : Sprite) (h1 : st1.maxSprites = 1000)
    (h2 : st1.vertexCount = 6 * st1.spriteCount) (h3 : st1.spriteCount < 1000) :
    rendererInv
      { st1 with
        currentTexture := s.texture
        vertices := st1.vertices ++ s.quad
        vertexCount := st1.vertexCount + 6
        spriteCount := st1.spriteCount + 1 } :=
  ⟨h1, by simp only []; omega, by simp only []; omega⟩

lemma rendererInv_drawSprite (st : RendererState) (s : Sprite) (h : rendererInv st) :
    rendererInv (st.drawSprite s) := by
  unfold RendererState.drawSprite
  split
  · exact h
  · have hpreInv : rendererInv (if st.needsFlush s then st.flush else st) := by
      split
      · exact rendererInv_flush st h
      · exact h
    have hpre : (if st.needsFlush s then st.flush else st).spriteCount < 1000 :=
      preAppend_spriteCount_lt st s h
    exact rendererInv_append _ s hpreInv.1 hpreInv.2.1 hpre

lemma rendererInv_applyRenderOp (st : RendererState) (op : RenderOp) (h : rendererInv st) :
    rendererInv (applyRenderOp st op) := by
  cases op with
  | beginBatch => exact ⟨h.1, rfl, Nat.zero_le 1000⟩
  | draw s => exact rendererInv_drawSprite st s h
  | flushBatch => exact rendererInv_flush st h
  | endBatch => exact rendererInv_flush st h

lemma rendererInv_runRenderOps (ops : List RenderOp) : rendererInv (runRenderOps ops) := by
  unfold runRenderOps
  suffices h : ∀ st, rendererInv st → rendererInv (ops.foldl applyRenderOp st) by
    exact h _ ⟨rfl, rfl, Nat.zero_le 1000⟩
  induction ops with
  | nil => exact fun _ h => h
  | cons op rest ih => exact fun st h => ih _ (rendererInv_applyRenderOp st op h)

/-- **C10**: in every state reachable by a sequence of
begin/drawSprite/flush/end calls on a fresh renderer, the vertex cursor
is exactly `6·spriteCount` and never exceeds `maxSprites × 6 = 6000`; at
append time (after the flush decision) `spriteCount < maxSprites`, and
every scratch-buffer float index `drawSprite` would write lies inside
the fixed allocation of `maxSprites × 6 × 8 = 48000` floats. -/
theorem drawSprite_writes_in_bounds (ops : List RenderOp) (s : Sprite) :
    (runRenderOps ops).vertexCount = 6 * (runRenderOps ops).spriteCount ∧
    (runRenderOps ops).vertexCount ≤ 1000 * 6 ∧
    (s.visible = true →
      (if (runRenderOps ops).needsFlush s then (runRenderOps ops).flush
        else runRenderOps ops).spriteCount < 1000) ∧
    ∀ i ∈ drawWriteIndices (runRenderOps ops) s, i < 1000 * 6 * 8 := by
  obtain ⟨h1, h2, h3⟩ := rendererInv_runRenderOps ops
  refine ⟨h2, by omega, fun _ => preAppend_spriteCount_lt _ s ⟨h1, h2, h3⟩, ?_⟩
  intro i hi
  unfold drawWriteIndices at hi
  split at hi
  · simp at hi
  · have hpreInv : rendererInv
        (if (runRenderOps ops).needsFlush s then (runRenderOps ops).flush
          else runRenderOps ops) := by
      split
      · exact rendererInv_flush _ ⟨h1, h2, h3⟩
      · exact ⟨h1, h2, h3⟩
    have hpre :
        (if (runRenderOps ops).needsFlush s then (runRenderOps ops).flush
          else runRenderOps ops).spriteCount < 1000 :=
      preAppend_spriteCount_lt _ s ⟨h1, h2, h3⟩
    simp only [List.mem_map, List.mem_range] at hi
    obtain ⟨k, hk, rfl⟩ := hi
    have hvc := hpreInv.2.1
    omega

/-- Witness for `drawSprite_writes_in_bounds`: a concrete two-call
sequence followed by a textured draw stays under the sprite capacity at
append time. -/
theorem drawSprite_writes_in_bounds_witness :
    (if (runRenderOps [RenderOp.beginBatch, RenderOp.draw sprNoTex]).needsFlush (sprTex 7)
      then (runRenderOps [RenderOp.beginBatch, RenderOp.draw sprNoTex]).flush
      else runRenderOps [RenderOp.beginBatch, RenderOp.draw sprNoTex]).spriteCount < 1000 :=
  (drawSprite_writes_in_bounds [RenderOp.beginBatch, RenderOp.draw sprNoTex] (sprTex 7)).2.2.1
    (by norm_num [sprTex, sprNoTex])

/-- **C4 (counterexample)**: a descriptor whose `meta.mode` is
`"bogus"` — neither `'individual'` nor `'packed'` — is *not* rejected:
`loadSpriteAtlas` resolves successfully through the individual-sprite
path and loads the declared sprites (here `"ship"`). -/
theorem loadSpriteAtlas_unknown_mode_counterexample :
    atlasBogusMode.meta = some ⟨some "bogus", some "sprites/", none, none⟩ ∧
    (∃ tm', loadSpriteAtlas envTwoOfThree (some atlasBogusMode) "" TMState.init =
        Except.ok tm' ∧ tm'.hasTexture "ship" = true) := by
  refine ⟨rfl, ⟨loadIndividualSprites envTwoOfThree "" atlasBogusMode
    ⟨some "bogus", some "sprites/", none, none⟩ TMState.init, rfl, ?_⟩⟩
  decide

/-- **C4 (amended)**: `loadSpriteAtlas` hard-fails when the descriptor
fetch/parse fails or when the `meta` block is missing (the read of
`atlas.meta.mode` throws); but a `meta.mode` value other than the exact
string `'packed'` — unknown modes included — is treated as
`'individual'`: the load dispatches to the individual-sprite loader and
resolves. -/
theorem loadSpriteAtlas_malformed_meta (env : String → Option ImageAsset)
    (fetched : Option Atlas) (basePath : String) (tm : TMState) :
    (fetched = none →
      loadSpriteAtlas env fetched basePath tm = .error "Failed to load sprite atlas") ∧
    (∀ atlas, fetched = some atlas → atlas.meta = none →
      ∃ msg, loadSpriteAtlas env fetched basePath tm = .error msg) ∧
    (∀ atlas meta, fetched = some atlas → atlas.meta = some meta →
      meta.mode.getD "individual" ≠ "packed" →
      loadSpriteAtlas env fetched basePath tm =
        .ok (loadIndividualSprites env basePath atlas meta tm)) := by
  refine ⟨?_, ?_, ?_⟩
  · rintro rfl
    rfl
  · rintro atlas rfl hmeta
    simp only [loadSpriteAtlas, hmeta]
    exact ⟨_, rfl⟩
  · rintro atlas meta rfl hmeta hmode
    simp only [loadSpriteAtlas, hmeta]
    simp only [if_neg hmode]

/-- Witness for `loadSpriteAtlas_malformed_meta`: the `"bogus"`-mode
descriptor resolves through the individual loader. -/
theorem loadSpriteAtlas_malformed_meta_witness :
    loadSpriteAtlas envTwoOfThree (some atlasBogusMode) "" TMState.init =
      .ok (loadIndividualSprites envTwoOfThree "" atlasBogusMode
        ⟨some "bogus", some "sprites/", none, none⟩ TMState.init) :=
  (loadSpriteAtlas_malformed_meta envTwoOfThree (some atlasBogusMode) "" TMState.init).2.2
    atlasBogusMode ⟨some "bogus", some "sprites/", none, none⟩ rfl rfl (by decide)

lemma mapSetStr_lookup_self : ∀ (m : List (String × TexEntry)) (k : String) (v : TexEntry),
    (mapSetStr m k v).lookup k = some v
  | [], k, v => by simp [mapSetStr, List.lookup]
  | (k', v') :: rest, k, v => by
    by_cases h : k' = k
    · simp [mapSetStr, h, List.lookup]
    · have hb : (k == k') = false := beq_eq_false_iff_ne.mpr (Ne.symm h)
      simp [mapSetStr, h, List.lookup, hb, mapSetStr_lookup_self rest k v]

lemma mapSetStr_lookup_other : ∀ (m : List (String × TexEntry)) (k : String) (v : TexEntry)
    (n : String), n ≠ k → (mapSetStr m k v).lookup n = m.lookup n
  | [], k, v, n, h => by
    have hb : (n == k) = false := beq_eq_false_iff_ne.mpr h
    simp [mapSetStr, List.lookup, hb]
  | (k', v') :: rest, k, v, n, h => by
    by_cases hk : k' = k
    · subst hk
      have hb : (n == k') = false := beq_eq_false_iff_ne.mpr h
      simp [mapSetStr, List.lookup, hb]
    · by_cases hn : k' = n
      · subst hn
        simp [mapSetStr, hk, List.lookup]
      · have hb : (n == k') = false := beq_eq_false_iff_ne.mpr (Ne.symm hn)
        simp [mapSetStr, hk, List.lookup, hb,
          mapSetStr_lookup_other rest k v n h]

lemma foldl_loadTextureSoft_lookup_notmem (env : String → Option ImageAsset) :
    ∀ (jobs : List (String × String)) (tm : TMState) (n : String),
      n ∉ jobs.map Prod.fst →
      ((jobs.foldl (fun t job => t.loadTextureSoft env job.1 job.2) tm).textures.lookup n) =
        tm.textures.lookup n
  | [], tm, n, _ => rfl
  | (m, p) :: rest, tm, n, h => by
    have hnm : n ≠ m := by
      simp only [List.map_cons, List.mem_cons] at h
      exact fun hc => h (Or.inl hc)
    have hrest : n ∉ rest.map Prod.fst := by
      simp only [List.map_cons, List.mem_cons] at h
      exact fun hc => h (Or.inr hc)
    rw [List.foldl_cons,
      foldl_loadTextureSoft_lookup_notmem env rest _ n hrest]
    unfold TMState.loadTextureSoft TMState.loadTexture
    cases env p with
    | some img => exact mapSetStr_lookup_other tm.textures m _ n hnm
    | none => rfl

lemma foldl_loadTextureSoft_lookup_split (env : String → Option ImageAsset)
    (pre post : List (String × String)) (n p : String) (tm : TMState)
    (hpre : n ∉ pre.map Prod.fst) (hpost : n ∉ post.map Prod.fst) :
    (((pre ++ (n, p) :: post).foldl
        (fun t job => t.loadTextureSoft env job.1 job.2) tm).textures.lookup n) =
      match env p with
      | some img => some ⟨img.tex, img.width, img.height, none, false⟩
      | none => tm.textures.lookup n := by
  rw [List.foldl_append, List.foldl_cons]
  rw [foldl_loadTextureSoft_lookup_notmem env post _ n hpost]
  unfold TMState.loadTextureSoft TMState.loadTexture
  cases env p with
  | some img =>
    exact mapSetStr_lookup_self _ n _
  | none =>
    exact foldl_loadTextureSoft_lookup_notmem env pre tm n hpre

lemma nodup_keys_split {n p : String} (jobs : List (String × String))
    (hmem : (n, p) ∈ jobs) (hnd : (jobs.map Prod.fst).Nodup) :
    ∃ pre post, jobs = pre ++ (n, p) :: post ∧
      n ∉ pre.map Prod.fst ∧ n ∉ post.map Prod.fst := by
  obtain ⟨pre, post, rfl⟩ := List.append_of_mem hmem
  refine ⟨pre, post, rfl, ?_, ?_⟩
  · rw [List.map_append, List.map_cons] at hnd
    intro hc
    exact List.disjoint_of_nodup_append hnd hc (List.mem_cons_self n _)
  · rw [List.map_append, List.map_cons] at hnd
    exact (List.nodup_cons.mp (List.Nodup.of_append_right hnd)).1

/-- **C7**: in individual mode (with distinct declared names), the load
always resolves, and each declared sprite or animation-frame name is
bound in the texture map exactly when its image loads — a failed image
leaves that name absent and never aborts the rest of the load. -/
theorem loadIndividualSprites_soft_failure (env : String → Option ImageAsset)
    (atlas : Atlas) (meta : AtlasMeta) (basePath : String)
    (hmeta : atlas.meta = some meta)
    (hmode : meta.mode.getD "individual" ≠ "packed")
    (hnd : ((spriteJobs basePath (meta.spritePath.getD (meta.image.getD "sprites/"))
        atlas.sprites).map Prod.fst).Nodup) :
    ∃ tm', loadSpriteAtlas env (some atlas) basePath TMState.init = .ok tm' ∧
      ∀ job ∈ spriteJobs basePath (meta.spritePath.getD (meta.image.getD "sprites/"))
          atlas.sprites,
        tm'.textures.lookup job.1 =
          (env job.2).map (fun img => ⟨img.tex, img.width, img.height, none, false⟩) := by
  refine ⟨loadIndividualSprites env basePath atlas meta TMState.init, ?_, ?_⟩
  · simp only [loadSpriteAtlas, hmeta]
    simp only [if_neg hmode]
  · rintro ⟨n, p⟩ hmem
    obtain ⟨pre, post, hjobs, hpre, hpost⟩ := nodup_keys_split _ hmem hnd
    simp only [loadIndividualSprites]
    rw [hjobs, foldl_loadTextureSoft_lookup_split env pre post n p _ hpre hpost]
    cases env p with
    | some img => rfl
    | none => rfl

/-- Witness for `loadIndividualSprites_soft_failure`: `atlasThree`
declares three sprites and `envTwoOfThree` fails exactly the
`sheep-enemy` image; the load resolves with the other two present. -/
theorem loadIndividualSprites_soft_failure_witness :
    ∃ tm', loadSpriteAtlas envTwoOfThree (some atlasThree) "" TMState.init = .ok tm' ∧
      ∀ job ∈ spriteJobs ""
          ((some "sprites/" : Option String).getD
            ((none : Option String).getD "sprites/")) atlasThree.sprites,
        tm'.textures.lookup job.1 =
          (envTwoOfThree job.2).map (fun img => ⟨img.tex, img.width, img.height, none, false⟩) :=
  loadIndividualSprites_soft_failure envTwoOfThree atlasThree
    ⟨some "individual", some "sprites/", none, none⟩ "" rfl (by decide) (by decide)

lemma mapSetNat_self_mem : ∀ (m : List (Nat × Enemy)) (k : Nat) (v : Enemy),
    (k, v) ∈ mapSetNat m k v
  | [], k, v => by simp [mapSetNat]
  | (k', v') :: rest, k, v => by
    by_cases h : k' = k
    · simp [mapSetNat, h]
    · simp only [mapSetNat, if_neg h, List.mem_cons]
      exact Or.inr (mapSetNat_self_mem rest k v)

lemma mapSetNat_mem_of_ne : ∀ (m : List (Nat × Enemy)) (k : Nat) (v : Enemy)
    (q : Nat × Enemy), q ∈ m → q.1 ≠ k → q ∈ mapSetNat m k v
  | [], _, _, q, hq, _ => absurd hq (List.not_mem_nil q)
  | (k', v') :: rest, k, v, q, hq, hne => by
    rcases List.mem_cons.mp hq with rfl | hq'
    · simp only [mapSetNat, if_neg hne, List.mem_cons]
      exact Or.inl trivial
    · by_cases h : k' = k
      · simp only [mapSetNat, if_pos h, List.mem_cons]
        exact Or.inr hq'
      · simp only [mapSetNat, if_neg h, List.mem_cons]
        exact Or.inr (mapSetNat_mem_of_ne rest k v q hq' hne)

lemma mapSetNat_mem_nodup : ∀ (m : List (Nat × Enemy)) (k : Nat) (v : Enemy)
    (q : Nat × Enemy), (m.map Prod.fst).Nodup → q ∈ mapSetNat m k v →
      q = (k, v) ∨ (q ∈ m ∧ q.1 ≠ k)
  | [], k, v, q, _, hq => by
    simp only [mapSetNat, List.mem_singleton] at hq
    exact Or.inl hq
  | (k', v') :: rest, k, v, q, hnd, hq => by
    rw [List.map_cons, List.nodup_cons] at hnd
    obtain ⟨hk', hrest⟩ := hnd
    by_cases h : k' = k
    · subst h
      rw [mapSetNat, if_pos rfl] at hq
      rcases List.mem_cons.mp hq with rfl | hq'
      · exact Or.inl rfl
      · refine Or.inr ⟨List.mem_cons_of_mem _ hq', fun hc => ?_⟩
        have hqm : q.1 ∈ List.map Prod.fst rest := List.mem_map_of_mem Prod.fst hq'
        rw [hc] at hqm
        exact hk' hqm
    · rw [mapSetNat, if_neg h] at hq
      rcases List.mem_cons.mp hq with rfl | hq'
      · exact Or.inr ⟨List.mem_cons_self _ _, h⟩
      · rcases mapSetNat_mem_nodup rest k v q hrest hq' with h1 | ⟨h2, h3⟩
        · exact Or.inl h1
        · exact Or.inr ⟨List.mem_cons_of_mem _ h2, h3⟩

lemma mapSetNat_keys_nodup : ∀ (m : List (Nat × Enemy)) (k : Nat) (v : Enemy),
    (m.map Prod.fst).Nodup → ((mapSetNat m k v).map Prod.fst).Nodup
  | [], k, v, _ => by simp [mapSetNat]
  | (k', v') :: rest, k, v, hnd => by
    rw [List.map_cons, List.nodup_cons] at hnd
    obtain ⟨hk', hrest⟩ := hnd
    by_cases h : k' = k
    · subst h
      rw [mapSetNat, if_pos rfl, List.map_cons, List.nodup_cons]
      exact ⟨hk', hrest⟩
    · rw [mapSetNat, if_neg h, List.map_cons, List.nodup_cons]
      refine ⟨fun hc => ?_, mapSetNat_keys_nodup rest k v hrest⟩
      rcases List.mem_map.mp hc with ⟨q, hq, hq1⟩
      rcases mapSetNat_mem_nodup rest k v q hrest hq with rfl | ⟨h2, _⟩
      · exact h hq1.symm
      · have hqm : q.1 ∈ List.map Prod.fst rest := List.mem_map_of_mem Prod.fst h2
        rw [hq1] at hqm
        exact hk' hqm

lemma lookup_none_forall : ∀ (m : List (Nat × Enemy)) (k : Nat),
    m.lookup k = none → ∀ q ∈ m, q.1 ≠ k
  | [], _, _, q, hq => absurd hq (List.not_mem_nil q)
  | (k', v') :: rest, k, hl, q, hq => by
    by_cases h : k = k'
    · subst h
      simp [List.lookup] at hl
    · have hb : (k == k') = false := beq_eq_false_iff_ne.mpr h
      simp only [List.lookup, hb] at hl
      rcases List.mem_cons.mp hq with rfl | hq'
      · exact Ne.symm h
      · exact lookup_none_forall rest k hl q hq'

lemma lookup_some_mem : ∀ (m : List (Nat × Enemy)) (k : Nat) (v : Enemy),
    m.lookup k = some v → (k, v) ∈ m
  | [], k, v, h => by simp [List.lookup] at h
  | (k', v') :: rest, k, v, h => by
    by_cases hk : k = k'
    · subst hk
      simp only [List.lookup, beq_self_eq_true] at h
      rw [Option.some_inj] at h
      rw [← h]
      exact List.mem_cons_self _ _
    · have hb : (k == k') = false := beq_eq_false_iff_ne.mpr hk
      simp only [List.lookup, hb] at h
      exact List.mem_cons_of_mem _ (lookup_some_mem rest k v h)

lemma shooterStep_inv (processed : List Enemy) (m : List (Nat × Enemy)) (e : Enemy)
    (h : shootersInv processed m) : shootersInv (processed ++ [e]) (shooterStep m e) := by
  obtain ⟨hK, hA, hB⟩ := h
  unfold shooterStep
  cases hl : m.lookup e.col with
  | none =>
    have hno : ∀ q ∈ m, q.1 ≠ e.col := lookup_none_forall m e.col hl
    refine ⟨mapSetNat_keys_nodup m e.col e hK, ?_, ?_⟩
    · intro q hq
      rcases mapSetNat_mem_nodup m e.col e q hK hq with rfl | ⟨hqm, hqne⟩
      · refine ⟨List.mem_append_right _ (List.mem_singleton_self e), rfl, ?_⟩
        intro x hx hxc
        rcases List.mem_append.mp hx with hx' | hx'
        · obtain ⟨q', hq'm, hq'1⟩ := hB x hx'
          exact absurd (hq'1.trans hxc) (hno q' hq'm)
        · rcases List.mem_singleton.mp hx' with rfl
          exact le_rfl
      · obtain ⟨hq2, hqc, hqmax⟩ := hA q hqm
        refine ⟨List.mem_append_left _ hq2, hqc, ?_⟩
        intro x hx hxc
        rcases List.mem_append.mp hx with hx' | hx'
        · exact hqmax x hx' hxc
        · rcases List.mem_singleton.mp hx' with rfl
          exact absurd hxc.symm (hno q hqm)
    · intro x hx
      rcases List.mem_append.mp hx with hx' | hx'
      · obtain ⟨q', hq'm, hq'1⟩ := hB x hx'
        exact ⟨q', mapSetNat_mem_of_ne m e.col e q' hq'm (hno q' hq'm), hq'1⟩
      · rcases List.mem_singleton.mp hx' with rfl
        exact ⟨(x.col, x), mapSetNat_self_mem m x.col x, rfl⟩
  | some ex =>
    show shootersInv (processed ++ [e]) (if ex.row < e.row then mapSetNat m e.col e else m)
    have hexm : (e.col, ex) ∈ m := lookup_some_mem m e.col ex hl
    obtain ⟨hex2, hexc, hexmax⟩ := hA (e.col, ex) hexm
    by_cases hrow : ex.row < e.row
    · rw [if_pos hrow]
      refine ⟨mapSetNat_keys_nodup m e.col e hK, ?_, ?_⟩
      · intro q hq
        rcases mapSetNat_mem_nodup m e.col e q hK hq with rfl | ⟨hqm, hqne⟩
        · refine ⟨List.mem_append_right _ (List.mem_singleton_self e), rfl, ?_⟩
          intro x hx hxc
          rcases List.mem_append.mp hx with hx' | hx'
          · exact le_trans (hexmax x hx' hxc) hrow.le
          · rcases List.mem_singleton.mp hx' with rfl
            exact le_rfl
        · obtain ⟨hq2, hqc, hqmax⟩ := hA q hqm
          refine ⟨List.mem_append_left _ hq2, hqc, ?_⟩
          intro x hx hxc
          rcases List.mem_append.mp hx with hx' | hx'
          · exact hqmax x hx' hxc
          · rcases List.mem_singleton.mp hx' with rfl
            exact absurd hxc.symm hqne
      · intro x hx
        rcases List.mem_append.mp hx with hx' | hx'
        · obtain ⟨q', hq'm, hq'1⟩ := hB x hx'
          by_cases hc : q'.1 = e.col
          · refine ⟨(e.col, e), mapSetNat_self_mem m e.col e, ?_⟩
            rw [← hc]
            exact hq'1
          · exact ⟨q', mapSetNat_mem_of_ne m e.col e q' hq'm hc, hq'1⟩
        · rcases List.mem_singleton.mp hx' with rfl
          exact ⟨(x.col, x), mapSetNat_self_mem m x.col x, rfl⟩
    · rw [if_neg hrow]
      refine ⟨hK, ?_, ?_⟩
      · intro q hq
        obtain ⟨hq2, hqc, hqmax⟩ := hA q hq
        refine ⟨List.mem_append_left _ hq2, hqc, ?_⟩
        intro x hx hxc
        rcases List.mem_append.mp hx with hx' | hx'
        · exact hqmax x hx' hxc
        · rcases List.mem_singleton.mp hx' with rfl
          have hq_eq : q = (x.col, ex) :=
            List.inj_on_of_nodup_map hK hq hexm hxc.symm
          rw [hq_eq]
          exact not_lt.mp hrow
      · intro x hx
        rcases List.mem_append.mp hx with hx' | hx'
        · exact hB x hx'
        · rcases List.mem_singleton.mp hx' with rfl
          exact ⟨(x.col, ex), hexm, rfl⟩

lemma shooterFold_inv : ∀ (l processed : List Enemy) (m : List (Nat × Enemy)),
    shootersInv processed m →
    shootersInv (processed ++ l) (l.foldl shooterStep m)
  | [], processed, m, h => by simpa using h
  | e :: rest, processed, m, h => by
    have h2 := shooterFold_inv rest (processed ++ [e]) (shooterStep m e)
      (shooterStep_inv processed m e h)
    rw [List.foldl_cons]
    simpa [List.append_assoc] using h2

/-- **C6**: when alive enemies occupy distinct (row, col) grid cells (as
the formation builder guarantees), `getShooters` returns exactly, for
each column with at least one living enemy, that column's living enemy of
greatest row index — nothing else, and exactly one enemy per column.  The
result is recomputed from the current alive flags on every call, so a
front enemy's death promotes the next-lower row on the very next query. -/
theorem getShooters_frontmost (f : EnemyFormation)
    (hd : ∀ e₁ ∈ f.getAliveEnemies, ∀ e₂ ∈ f.getAliveEnemies,
      e₁.col = e₂.col → e₁.row = e₂.row → e₁ = e₂) :
    (∀ e, e ∈ f.getShooters ↔
      (e ∈ f.getAliveEnemies ∧
        ∀ x ∈ f.getAliveEnemies, x.col = e.col → x.row ≤ e.row)) ∧
    (∀ c, (∃ x ∈ f.getAliveEnemies, x.col = c) →
      ∃ e ∈ f.getShooters, e.col = c) ∧
    (∀ e₁ ∈ f.getShooters, ∀ e₂ ∈ f.getShooters, e₁.col = e₂.col → e₁ = e₂) := by
  have h0 : shootersInv [] [] :=
    ⟨List.nodup_nil, fun q hq => absurd hq (List.not_mem_nil q),
      fun x hx => absurd hx (List.not_mem_nil x)⟩
  have hinv : shootersInv f.getAliveEnemies (f.getAliveEnemies.foldl shooterStep []) := by
    simpa using shooterFold_inv f.getAliveEnemies [] [] h0
  obtain ⟨hK, hA, hB⟩ := hinv
  have hshoot : f.getShooters = (f.getAliveEnemies.foldl shooterStep []).map Prod.snd := rfl
  refine ⟨?_, ?_, ?_⟩
  · intro e
    constructor
    · intro he
      rw [hshoot] at he
      obtain ⟨q, hqm, rfl⟩ := List.mem_map.mp he
      obtain ⟨hq2, hqc, hqmax⟩ := hA q hqm
      exact ⟨hq2, fun x hx hxc => hqmax x hx (hxc.trans hqc)⟩
    · rintro ⟨he, hmax⟩
      obtain ⟨q, hqm, hq1⟩ := hB e he
      obtain ⟨hq2, hqc, hqmax⟩ := hA q hqm
      have hcol : q.2.col = e.col := hqc.trans hq1
      have hrow1 : e.row ≤ q.2.row := hqmax e he hq1.symm
      have hrow2 : q.2.row ≤ e.row := hmax q.2 hq2 hcol
      have heq : q.2 = e := hd q.2 hq2 e he hcol (le_antisymm hrow2 hrow1)
      rw [hshoot, ← heq]
      exact List.mem_map_of_mem Prod.snd hqm
  · rintro c ⟨x, hx, hxc⟩
    obtain ⟨q, hqm, hq1⟩ := hB x hx
    obtain ⟨_, hqc, _⟩ := hA q hqm
    refine ⟨q.2, ?_, ?_⟩
    · rw [hshoot]
      exact List.mem_map_of_mem Prod.snd hqm
    · rw [hqc, hq1, hxc]
  · intro e₁ h₁ e₂ h₂ hc
    rw [hshoot] at h₁ h₂
    obtain ⟨q₁, hq₁m, rfl⟩ := List.mem_map.mp h₁
    obtain ⟨q₂, hq₂m, rfl⟩ := List.mem_map.mp h₂
    obtain ⟨_, hq₁c, _⟩ := hA q₁ hq₁m
    obtain ⟨_, hq₂c, _⟩ := hA q₂ hq₂m
    have hq12 : q₁ = q₂ :=
      List.inj_on_of_nodup_map hK hq₁m hq₂m (by rw [← hq₁c, ← hq₂c]; exact hc)
    rw [hq12]

/-- Witness for `getShooters_frontmost`: in `formCols`, column 0 holds
alive enemies at rows 0 and 2 (row 4 destroyed), and the row-2 enemy is
returned as that column's shooter. -/
theorem getShooters_frontmost_witness :
    enemyAt 100 170 2 0 ∈ formCols.getShooters :=
  ((getShooters_frontmost formCols
      (by norm_num [formCols, EnemyFormation.getAliveEnemies, EnemyFormation.init,
        enemyAt, Enemy.destroy])).1 (enemyAt 100 170 2 0)).mpr
    ⟨by norm_num [formCols, EnemyFormation.getAliveEnemies, EnemyFormation.init,
        enemyAt, Enemy.destroy],
      by norm_num [formCols, EnemyFormation.getAliveEnemies, EnemyFormation.init,
        enemyAt, Enemy.destroy]⟩
